import Mathlib

/-! Verification of the notify-run-rs server core (shallow embedding).

The definitions below are translated from the repository sources:
`src/model.rs` (record types), `src/logging.rs` (the error-to-status
combinators), `src/vapid.rs` (payload construction), `src/rate_limiter.rs`
(the admission-control middleware), and `src/server.rs` (the handlers
`info`, `subscribe`, `send`, `send_message_with_timeout`, `redirect`, and
the route table built in `serve` / `active_routes` / `static_routes`).

Effects are made explicit: the Firestore-backed store, the connection
pool, the per-subscription push delivery and the URI parser are modelled
as fields of an `Env` record (outcome oracles), and each handler returns
its HTTP-level result together with the list of store writes it
persisted. -/

namespace NotifyRun

/-- Timestamps (`chrono::DateTime<Utc>`) are modelled as integers; the code
only ever orders them. -/
abbrev Timestamp := Int

/-- HTTP status codes (`axum::http::StatusCode`) as naturals. -/
abbrev StatusCode := Nat

/-- `StatusCode::NOT_FOUND`. -/
def NOT_FOUND : StatusCode := 404

/-- `StatusCode::INTERNAL_SERVER_ERROR`. -/
def INTERNAL_SERVER_ERROR : StatusCode := 500

/-- `model.rs`: `Subscription`. -/
structure Subscription where
  endpoint : String
  auth : String
  p256dh : String
deriving DecidableEq

/-- `model.rs`: `MessageResult`. -/
structure MessageResult where
  endpoint_domain : String
  result_status : String
deriving DecidableEq

/-- `model.rs`: `Message`. -/
structure Message where
  message : String
  sender_ip : String
  message_time : Timestamp
  result : List MessageResult
deriving DecidableEq

/-- `server.rs`: `MessageInfo` (one entry of the info response). -/
structure MessageInfo where
  message : String
  result : List MessageResult
  time : Timestamp
deriving DecidableEq

/-- `server.rs`: `ChannelInfo` (the info / register response body). -/
structure ChannelInfo where
  channel_id : String
  messages : List MessageInfo
  time : String
  pub_key : String
  endpoint : String
  channel_page : String
deriving DecidableEq

/-- `logging.rs`: `WebResult<T> = Result<T, StatusCode>`. -/
abbrev WebResult (α : Type) := Except StatusCode α

/-- `logging.rs`: `log_error_not_found` maps any error (whatever its cause)
to `NOT_FOUND`; the error value is only logged. -/
def log_error_not_found {ε α : Type} : Except ε α → WebResult α
  | .ok v => .ok v
  | .error _ => .error NOT_FOUND

/-- `logging.rs`: `log_error_internal` maps any error to
`INTERNAL_SERVER_ERROR`; the error value is only logged. -/
def log_error_internal {ε α : Type} : Except ε α → WebResult α
  | .ok v => .ok v
  | .error _ => .error INTERNAL_SERVER_ERROR

/-- `vapid.rs`: `MessageFormData`, the shape `serde_urlencoded` decodes the
raw message text into. -/
structure MessageFormData where
  message : String
  action : Option String
deriving DecidableEq

/-- `vapid.rs`: `MessagePayloadData`. -/
structure MessagePayloadData where
  action : String
deriving DecidableEq

/-- `vapid.rs`: `MessagePayload`. -/
structure MessagePayload where
  message : String
  vibrate : Bool
  silent : Bool
  channel : String
  data : MessagePayloadData
deriving DecidableEq

/-- `vapid.rs`: `MessagePayload::parse_new`. The form decoder
(`serde_urlencoded::from_str::<MessageFormData>`) is an external crate and
is passed in as a function returning `none` exactly when decoding fails. -/
def MessagePayload.parse_new (decode : String → Option MessageFormData)
    (message : String) (channel : String) (default_action : String) : MessagePayload :=
  let m : MessageFormData :=
    match decode message with
    | .some m => m
    | .none => { message := message, action := .none }
  { message := m.message
    channel := channel
    silent := false
    vibrate := false
    data := { action := match m.action with
                        | .some a => a
                        | .none => default_action } }

/-- Outcome of one `send_message` call raced against the timeout
(`tokio::time::timeout` in `send_message_with_timeout`). -/
inductive DeliveryOutcome
  | delivered
  | deliveryError (e : String)
  | timedOut
deriving DecidableEq

/-- Error of `tiny_firestore_odm`'s `Collection::get`: the channel document
may be absent, or the store call itself may fail; the Rust error type lumps
both into one `Err`. -/
inductive GetErr
  | storeFailure
  | notFound
deriving DecidableEq

/-- One store write performed (persisted) by a handler. -/
inductive StoreWrite
  | messageCreate (channel_id : String) (m : Message)
  | subscriptionCreate (channel_id : String) (sub_id : String) (s : Subscription)
deriving DecidableEq

/-- The effect environment of one request: outcomes of the pool, the store,
the per-subscription delivery, the URI parser and the form decoder, plus
the store contents and server configuration. -/
structure Env where
  /-- outcome of `server_state.db()` (pool acquisition) -/
  dbOk : Bool
  /-- transport health of `channels.get`: `false` means the store call fails -/
  getOk : Bool
  /-- outcome of the store create calls (`messages.create`, `subscriptions.try_create`) -/
  createOk : Bool
  /-- ids of the channels that exist in the store -/
  channels : List String
  /-- stored subscriptions of each channel, in store order -/
  subscriptions : String → List Subscription
  /-- stored messages of each channel -/
  messages : String → List Message
  /-- outcome of `send_message` for a subscription, within the timeout -/
  deliver : Subscription → DeliveryOutcome
  /-- `Uri::from_str` then `.authority()`: outer `none` = parse failure,
  inner `none` = parsed but no authority component -/
  uriAuthority : String → Option (Option String)
  /-- `serde_urlencoded::from_str::<MessageFormData>`: `none` = decode failure -/
  decode : String → Option MessageFormData
  /-- `Utc::now()` at the send request -/
  now : Timestamp
  /-- `ServerState.vapid_pubkey` -/
  vapid_pubkey : String
  /-- `ServerState.server_base` -/
  server_base : String

/-- Modelled from the spec: `ServerState::channel_page_url` is not under
`src/` (only its callers are). The channel page is the static page served
at `/c/:channel_id` under the server base, as the nested static route and
the QR-code URL format `server_base + "/c/" + channel_id` in
`render_qr_code` show. -/
def channel_page_url (server_base : String) (channel_id : String) : String :=
  server_base ++ ("/c/") ++ channel_id

/-- Modelled from the spec: `ServerState::endpoint_url` is not under `src/`
(only its callers are). The endpoint a sender posts to is
`POST /:channelId` (HTTP table), i.e. the channel id under the server base. -/
def endpoint_url (server_base : String) (channel_id : String) : String :=
  server_base ++ ("/") ++ channel_id

/-- `server_state.db()`: pool acquisition, infallible error type aside. -/
def dbGet (env : Env) : Except Unit Unit :=
  if env.dbOk = true then .ok () else .error ()

/-- `channels.get(&channel_id)`: fails with `storeFailure` when the store
call fails, with `notFound` when the channel document is absent. -/
def channelsGet (env : Env) (channel_id : String) : Except GetErr Unit :=
  if env.getOk = false then .error .storeFailure
  else if channel_id ∈ env.channels then .ok () else .error .notFound

/-- Outcome of a store `create` / `try_create` call. -/
def createResult (env : Env) : Except Unit Unit :=
  if env.createOk = true then .ok () else .error ()

/-- `subscriptions.list().with_page_size(10).get_page()`: one page of at
most 10 subscriptions, in store order. -/
def subscriptionsPage (env : Env) (channel_id : String) : List Subscription :=
  (env.subscriptions channel_id).take 10

/-- Ordering used by the info query `with_order_by("message_time desc")`:
`timeGe a b` means `a` is at least as recent as `b`. -/
def timeGe (a b : Message) : Prop := b.message_time ≤ a.message_time

instance : DecidableRel timeGe := fun a b =>
  inferInstanceAs (Decidable (b.message_time ≤ a.message_time))

instance : IsTotal Message timeGe :=
  ⟨fun a b => le_total b.message_time a.message_time⟩

instance : IsTrans Message timeGe :=
  ⟨fun _ _ _ h1 h2 => le_trans h2 h1⟩

/-- `messages.list().with_order_by("message_time desc").with_page_size(10).get_page()`:
the store returns the first page of the messages ordered by time
descending, i.e. the (at most) 10 most recent. -/
def messagesPage (env : Env) (channel_id : String) : List Message :=
  (List.insertionSort timeGe (env.messages channel_id)).take 10

/-- Flattening `.ok().map(|d| d.authority().map(..)).flatten().unwrap_or_default()`
from `send_message_with_timeout`. -/
def authorityOrEmpty (x : Option (Option String)) : String :=
  match x with
  | .some (.some a) => a
  | .some .none => ""
  | .none => ""

/-- `server.rs`: `send_message_with_timeout`. The race of `send_message`
against the 10-second timeout is the `env.deliver` oracle. -/
def send_message_with_timeout (env : Env) (subscription : Subscription) : MessageResult :=
  let result_status : String :=
    match env.deliver subscription with
    | .delivered => "201"
    | .deliveryError e => e
    | .timedOut => "Timed out."
  let endpoint_domain : String := authorityOrEmpty (env.uriAuthority subscription.endpoint)
  { result_status := result_status, endpoint_domain := endpoint_domain }

/-- `server.rs`: the `send` handler (`POST /:channel_id`). Returns the
HTTP-level result and the list of store writes persisted. The fan-out
(`join_all` over one future per fetched subscription) preserves the order
and the count of the fetched page, hence the `List.map`. -/
def send (env : Env) (channel_id : String) (message : String) (addr_ip : String) :
    WebResult String × List StoreWrite :=
  match log_error_internal (dbGet env) with
  | .error e => (.error e, [])
  | .ok _ =>
    match log_error_not_found (channelsGet env channel_id) with
    | .error e => (.error e, [])
    | .ok _ =>
      let payload := MessagePayload.parse_new env.decode message channel_id
        (channel_page_url env.server_base channel_id)
      let subs := subscriptionsPage env channel_id
      let message_result := subs.map (send_message_with_timeout env)
      let stored : Message :=
        { message := payload.message
          message_time := env.now
          sender_ip := addr_ip
          result := message_result }
      match log_error_internal (createResult env) with
      | .error e => (.error e, [])
      | .ok _ => (.ok ("ok"), [StoreWrite.messageCreate channel_id stored])

/-- `server.rs`: `SubscriptionRequestKeys`. -/
structure SubscriptionRequestKeys where
  auth : String
  p256dh : String
deriving DecidableEq

/-- `server.rs`: `SubscriptionRequestSubscription`. -/
structure SubscriptionRequestSubscription where
  endpoint : String
  keys : SubscriptionRequestKeys
deriving DecidableEq

/-- `server.rs`: `SubscriptionRequest`. -/
structure SubscriptionRequest where
  id : String
  subscription : SubscriptionRequestSubscription
deriving DecidableEq

/-- `server.rs`: the `subscribe` handler (`POST /:channel_id/subscribe`). -/
def subscribe (env : Env) (req : SubscriptionRequest) (channel_id : String) :
    WebResult Unit × List StoreWrite :=
  match log_error_internal (dbGet env) with
  | .error e => (.error e, [])
  | .ok _ =>
    match log_error_not_found (channelsGet env channel_id) with
    | .error e => (.error e, [])
    | .ok _ =>
      match log_error_internal (createResult env) with
      | .error e => (.error e, [])
      | .ok _ =>
        (.ok (), [StoreWrite.subscriptionCreate channel_id req.id
          { endpoint := req.subscription.endpoint
            auth := req.subscription.keys.auth
            p256dh := req.subscription.keys.p256dh }])

/-- `server.rs`: the `info` handler (`GET /:channel_id/json`). -/
def info (env : Env) (channel_id : String) : WebResult ChannelInfo × List StoreWrite :=
  match log_error_internal (dbGet env) with
  | .error e => (.error e, [])
  | .ok _ =>
    match log_error_not_found (channelsGet env channel_id) with
    | .error e => (.error e, [])
    | .ok _ =>
      (.ok { channel_id := channel_id
             messages := (messagesPage env channel_id).map (fun d =>
               { message := d.message, result := d.result, time := d.message_time })
             time := ""
             pub_key := env.vapid_pubkey
             endpoint := endpoint_url env.server_base channel_id
             channel_page := channel_page_url env.server_base channel_id }, [])

/-- A request as seen by the rate-limiter middleware: the
`x-forwarded-for` header (its string value when present; a header whose
bytes do not form a string is `to_str().ok()`-flattened away by the code
and modelled as absent) and an opaque rest. -/
structure HttpRequest where
  xForwardedFor : Option String
  body : String
deriving DecidableEq

/-- A response as seen by the rate-limiter middleware. -/
structure RlResponse where
  status : Nat
  body : String
deriving DecidableEq

/-- `rate_limiter.rs`: the client identity computed in
`RateLimiterMiddleware::call`: the `x-forwarded-for` value, falling back
to the literal string `unknown`. -/
def clientIdentity (req : HttpRequest) : String :=
  match req.xForwardedFor with
  | .some v => v
  | .none => "unknown"

/-- `rate_limiter.rs`: the 429 rejection response; `quotaDescr` models the
debug rendering of the configured quota interpolated into the body. -/
def rateLimitRejection (quotaDescr : String) : RlResponse :=
  { status := 429, body := ("Rate limit of API calls exceeded. ") ++ quotaDescr }

/-- `rate_limiter.rs`: `RateLimiterMiddleware::call`. `checkKey` models
`rate_limiter.check_key(&ip).is_ok()` (the atomic check-and-consume). The
returned flag records whether the inner service was invoked. -/
def RateLimiterMiddleware.call (checkKey : String → Bool) (quotaDescr : String)
    (inner : HttpRequest → RlResponse) (req : HttpRequest) : RlResponse × Bool :=
  let ip := clientIdentity req
  if checkKey ip = false then (rateLimitRejection quotaDescr, false)
  else (inner req, true)

/-! Route table and dispatch.

`serve` builds (registration order): `nest("/", static_routes())`, then
`route("/:channel_id", get(redirect).post(send))`, `route("/undefined", ..)`,
`route("/service-worker.js", ..)`, `route("/:channel_id/qr.svg", ..)`, and
last `nest("/", active_routes())` where `active_routes` is the sub-router
of `/:channel_id/json`, `/:channel_id/subscribe`, `/api/register_channel`
and `/register_channel` wrapped in the `RateLimiterMiddleware` layer.

The axum router of this code base chains routes so that the most recently
registered route is consulted first, and a consulted sub-router that has
no matching inner route answers with a marked empty-router response that
falls through to the routes registered before it; a layer on a nested
router runs as soon as the nest prefix matches, before inner matching.
(These are the only dispatch semantics under which this route table
serves its documented surface at all: `nest("/", active_routes())` is a
catch-all prefix registered last, and `/undefined` is registered after the
overlapping `/:channel_id`.) Consequently every request first passes the
rate limiter. -/

/-- One segment of a route pattern: a literal or a `:capture`. -/
inductive Seg
  | lit (s : String)
  | capture
deriving DecidableEq

/-- HTTP methods used by the route table. -/
inductive Method
  | get
  | post
deriving DecidableEq

/-- The handlers of `server.rs`. -/
inductive Handler
  | register_channel
  | info
  | subscribe
  | send
  | redirect
  | render_qr_code
  | undefined_route
  | moved_service_worker
  | static_index
  | static_dir
  | static_channel_page
deriving DecidableEq

/-- Does a pattern segment match a path segment? -/
def segMatch : Seg → String → Bool
  | .lit v, s => v = s
  | .capture, _ => true

/-- Full (exact-length) pattern match, as for `route(..)` patterns. -/
def fullMatch : List Seg → List String → Bool
  | [], [] => true
  | p :: ps, s :: ss => segMatch p s && fullMatch ps ss
  | _, _ => false

/-- Prefix pattern match, as for `nest(..)` patterns; returns the
unconsumed path remainder (the nested router sees the prefix stripped). -/
def stripPre : List Seg → List String → Option (List String)
  | [], rest => some rest
  | p :: ps, s :: ss => if segMatch p s then stripPre ps ss else none
  | _ :: _, [] => none

/-- An exact route: one pattern with its per-method handlers
(`get(h)`, `post(h)`, `get(h1).post(h2)`). -/
structure MethodRoute where
  pattern : List Seg
  handlers : List (Method × Handler)

/-- A node of the top-level route table. -/
inductive RouteNode
  /-- `route(pattern, on-method handlers)` -/
  | route (r : MethodRoute)
  /-- `nest(pre, service)`: a static file service, GET only -/
  | serviceNest (pre : List Seg) (h : Handler)
  /-- `nest(pre, router layered with the rate limiter)` -/
  | limitedNest (pre : List Seg) (inner : List MethodRoute)

/-- Method lookup within one route's `on`-method handlers. -/
def findHandler (m : Method) : List (Method × Handler) → Option Handler
  | [] => none
  | (m2, h) :: rest => if m = m2 then some h else findHandler m rest

/-- Terminal outcome of dispatching one request. -/
inductive Outcome
  /-- a terminal non-handler response with this status (429 from the
  limiter, 404 from an exhausted route table, 405 from a method-gated
  static service) -/
  | rejected (status : Nat)
  /-- this handler is invoked -/
  | invoked (h : Handler)
deriving DecidableEq

/-- Inner routing of the rate-limited sub-router: `none` means the
sub-router produced its marked empty-router response (no pattern matched,
or the pattern matched but the method is not handled), which falls through
to the routes registered earlier. -/
def matchInner (m : Method) (path : List String) : List MethodRoute → Option Handler
  | [] => none
  | r :: rest =>
    if fullMatch r.pattern path then
      match findHandler m r.handlers with
      | some h => some h
      | none => matchInner m path rest
    else matchInner m path rest

/-- Dispatch a request over the route table in precedence order (most
recently registered first), with empty-router responses falling through.
`exhausted` is whether the requester's rate-limit quota is exhausted. -/
def dispatch (exhausted : Bool) (m : Method) (path : List String) :
    List RouteNode → Outcome
  | [] => Outcome.rejected 404
  | RouteNode.route r :: rest =>
    if fullMatch r.pattern path then
      match findHandler m r.handlers with
      | some h => Outcome.invoked h
      | none => dispatch exhausted m path rest
    else dispatch exhausted m path rest
  | RouteNode.serviceNest pre h :: rest =>
    match stripPre pre path with
    | some _ => if m = Method.get then Outcome.invoked h else Outcome.rejected 405
    | none => dispatch exhausted m path rest
  | RouteNode.limitedNest pre inner :: rest =>
    match stripPre pre path with
    | some tail =>
      if exhausted then Outcome.rejected 429
      else
        match matchInner m tail inner with
        | some h => Outcome.invoked h
        | none => dispatch exhausted m path rest
    | none => dispatch exhausted m path rest

/-- `server.rs`: the routes of `active_routes()`, the sub-router wrapped
in the `RateLimiterMiddleware` layer. -/
def active_inner : List MethodRoute :=
  [ { pattern := [Seg.capture, Seg.lit ("json")]
      handlers := [(Method.get, Handler.info)] }
  , { pattern := [Seg.capture, Seg.lit ("subscribe")]
      handlers := [(Method.post, Handler.subscribe)] }
  , { pattern := [Seg.lit ("api"), Seg.lit ("register_channel")]
      handlers := [(Method.post, Handler.register_channel)] }
  , { pattern := [Seg.lit ("register_channel")]
      handlers := [(Method.post, Handler.register_channel)] } ]

/-- `server.rs`: the full route table of `serve`, listed in precedence
order (reverse registration order; see the module comment above). -/
def app : List RouteNode :=
  [ RouteNode.limitedNest [] active_inner
  , RouteNode.route
      { pattern := [Seg.capture, Seg.lit ("qr.svg")],
        handlers := [(Method.get, Handler.render_qr_code)] }
  , RouteNode.route
      { pattern := [Seg.lit ("service-worker.js")],
        handlers := [(Method.get, Handler.moved_service_worker)] }
  , RouteNode.route
      { pattern := [Seg.lit ("undefined")],
        handlers := [(Method.get, Handler.undefined_route), (Method.post, Handler.undefined_route)] }
  , RouteNode.route
      { pattern := [Seg.capture],
        handlers := [(Method.get, Handler.redirect), (Method.post, Handler.send)] }
  , RouteNode.serviceNest [Seg.lit ("c"), Seg.capture] Handler.static_channel_page
  , RouteNode.serviceNest [Seg.lit ("static")] Handler.static_dir
  , RouteNode.serviceNest [] Handler.static_index ]

/-! The `redirect` handler. -/

/-- UTF-8 byte size of one character, as counted by Rust's `str::len`. -/
def charUtf8Len (c : Char) : Nat :=
  if c.toNat < 0x80 then 1
  else if c.toNat < 0x800 then 2
  else if c.toNat < 0x10000 then 3
  else 4

/-- UTF-8 byte length of a character list. -/
def rustLenList (cs : List Char) : Nat := (cs.map charUtf8Len).sum

/-- Rust's `String::len`: the UTF-8 byte length. -/
def rustStrLen (s : String) : Nat := rustLenList s.data

/-- Rust's `char::is_ascii_alphanumeric`: a digit or an ASCII letter. -/
def is_ascii_alphanumeric (c : Char) : Bool :=
  (0x30 ≤ c.toNat && c.toNat ≤ 0x39) ||
  (0x41 ≤ c.toNat && c.toNat ≤ 0x5A) ||
  (0x61 ≤ c.toNat && c.toNat ≤ 0x7A)

/-- The response built by the `redirect` handler: a status and an optional
`location` header. -/
structure RedirectResponse where
  status : Nat
  location : Option String
deriving DecidableEq

/-- `server.rs`: the `redirect` handler (`GET /:channel_id`). Note it is a
function of the path segment (and the configured base URL) alone: it takes
no store argument because the code performs no store access. -/
def redirect (server_base : String) (channel_id : String) : RedirectResponse :=
  if rustStrLen channel_id > 6 ∧ channel_id.data.all is_ascii_alphanumeric = true then
    { status := 302, location := some (channel_page_url server_base channel_id) }
  else
    { status := 404, location := none }

/-! Concrete sample data for the witnesses. -/

/-- A sample subscription. -/
def subA : Subscription :=
  { endpoint := "https://push.example.com/abc", auth := "a1", p256dh := "k1" }

/-- A second sample subscription. -/
def subB : Subscription :=
  { endpoint := "https://push.example.org/def", auth := "a2", p256dh := "k2" }

/-- A healthy environment holding one channel `abcdefg` with two
subscriptions; every delivery times out. -/
def envOk : Env :=
  { dbOk := true
    getOk := true
    createOk := true
    channels := ["abcdefg"]
    subscriptions := fun _ => [subA, subB]
    messages := fun _ => []
    deliver := fun _ => DeliveryOutcome.timedOut
    uriAuthority := fun _ => some (some ("push.example.com"))
    decode := fun _ => none
    now := 0
    vapid_pubkey := "PUB"
    server_base := "https://notify.example" }

/-- `envOk` with the store transport of `channels.get` failing. -/
def envStoreDown : Env := { envOk with getOk := false }

/-- `envOk` with no channels at all. -/
def envNoChannel : Env := { envOk with channels := [] }

/-- A sample subscribe request. -/
def reqA : SubscriptionRequest :=
  { id := "dev1"
    subscription := { endpoint := "https://push.example.com/abc"
                      keys := { auth := "a1", p256dh := "k1" } } }

/-! Theorems. -/

/-- C1: for every send request on an existing channel (healthy pool, store
write succeeding), the persisted Message's result list is exactly the map
of the per-subscription classifier over the page of subscriptions fetched
at send time — one DeliveryResult per fetched subscription, in fetch
order, so its length equals the page's length, whatever the individual
delivery outcomes are. -/
theorem send_one_result_per_subscription (env : Env) (cid msg ip : String)
    (hdb : env.dbOk = true) (hch : channelsGet env cid = .ok ())
    (hcr : env.createOk = true) :
    ∃ m : Message,
      (send env cid msg ip).2 = [StoreWrite.messageCreate cid m] ∧
      m.result = (subscriptionsPage env cid).map (send_message_with_timeout env) ∧
      m.result.length = (subscriptionsPage env cid).length := by
  refine ⟨{ message := (MessagePayload.parse_new env.decode msg cid
              (channel_page_url env.server_base cid)).message
            message_time := env.now
            sender_ip := ip
            result := (subscriptionsPage env cid).map (send_message_with_timeout env) },
          ?_, rfl, by simp⟩
  simp [send, dbGet, createResult, hdb, hch, hcr, log_error_internal, log_error_not_found]

/-- Witness for C1: in the sample environment the channel `abcdefg` has a
two-subscription page and both deliveries time out; the persisted message
still carries exactly one result per fetched subscription. -/
theorem send_one_result_per_subscription_witness :
    ∃ m : Message,
      (send envOk ("abcdefg") ("hello") ("1.2.3.4")).2 =
        [StoreWrite.messageCreate ("abcdefg") m] ∧
      m.result = (subscriptionsPage envOk ("abcdefg")).map (send_message_with_timeout envOk) ∧
      m.result.length = (subscriptionsPage envOk ("abcdefg")).length :=
  send_one_result_per_subscription envOk ("abcdefg") ("hello") ("1.2.3.4") rfl rfl rfl

/-- C2: the send operation as a whole succeeds (returns the `ok`
acknowledgement) whenever the pool handle is acquired, the channel exists
and the store write succeeds, for every delivery oracle; the caller-visible
result is invariant under changing the delivery outcomes; and any
caller-visible error is 404 or 500 — never a delivery failure. -/
theorem send_success_independent_of_delivery (env : Env) (cid msg ip : String)
    (d2 : Subscription → DeliveryOutcome) :
    ((env.dbOk = true) → (channelsGet env cid = .ok ()) → (env.createOk = true) →
      (send env cid msg ip).1 = .ok ("ok")) ∧
    (send env cid msg ip).1 = (send { env with deliver := d2 } cid msg ip).1 ∧
    (∀ e, (send env cid msg ip).1 = .error e →
      e = NOT_FOUND ∨ e = INTERNAL_SERVER_ERROR) := by
  have hdb2 : dbGet { env with deliver := d2 } = dbGet env := rfl
  have hch2 : channelsGet { env with deliver := d2 } cid = channelsGet env cid := rfl
  have hcr2 : createResult { env with deliver := d2 } = createResult env := rfl
  refine ⟨?_, ?_, ?_⟩
  · intro h1 h2 h3
    simp [send, dbGet, createResult, h1, h2, h3, log_error_internal, log_error_not_found]
  · cases hd : dbGet env with
    | error u => simp [send, hd, hdb2, log_error_internal]
    | ok u =>
      cases hg : channelsGet env cid with
      | error g =>
        simp [send, hd, hdb2, hg, hch2, log_error_internal, log_error_not_found]
      | ok g =>
        cases hc : createResult env with
        | error w =>
          simp [send, hd, hdb2, hg, hch2, hc, hcr2, log_error_internal, log_error_not_found]
        | ok w =>
          simp [send, hd, hdb2, hg, hch2, hc, hcr2, log_error_internal, log_error_not_found]
  · intro e he
    cases hd : dbGet env with
    | error u =>
      simp [send, hd, log_error_internal] at he
      exact Or.inr he.symm
    | ok u =>
      cases hg : channelsGet env cid with
      | error g =>
        simp [send, hd, hg, log_error_internal, log_error_not_found] at he
        exact Or.inl he.symm
      | ok g =>
        cases hc : createResult env with
        | error w =>
          simp [send, hd, hg, hc, log_error_internal, log_error_not_found] at he
          exact Or.inr he.symm
        | ok w =>
          simp [send, hd, hg, hc, log_error_internal, log_error_not_found] at he

/-- Witness for C2: in the sample environment (existing channel, healthy
store) a send with a delivery oracle that always succeeds is acknowledged
with `ok`; the theorem is applied with its hypotheses discharged
concretely. -/
theorem send_success_independent_of_delivery_witness :
    (send envOk ("abcdefg") ("hello") ("1.2.3.4")).1 = .ok ("ok") :=
  (send_success_independent_of_delivery envOk ("abcdefg") ("hello") ("1.2.3.4")
    (fun _ => DeliveryOutcome.delivered)).1 rfl rfl rfl

/-- C5: the recorded DeliveryResult's status is the string `201` when the
delivery succeeded within the timeout, the stringified delivery error when
it failed within the timeout, and the timeout marker `Timed out.` when the
timeout elapsed first; its endpoint domain is the authority component of
the subscription's endpoint URL, and the empty string when the URL does
not parse (or parses without an authority). -/
theorem delivery_result_classification (env : Env) (sub : Subscription) :
    ((env.deliver sub = .delivered →
        (send_message_with_timeout env sub).result_status = "201") ∧
     (∀ e, env.deliver sub = .deliveryError e →
        (send_message_with_timeout env sub).result_status = e) ∧
     (env.deliver sub = .timedOut →
        (send_message_with_timeout env sub).result_status = "Timed out.")) ∧
    ((∀ a, env.uriAuthority sub.endpoint = some (some a) →
        (send_message_with_timeout env sub).endpoint_domain = a) ∧
     (env.uriAuthority sub.endpoint = none →
        (send_message_with_timeout env sub).endpoint_domain = "") ∧
     (env.uriAuthority sub.endpoint = some none →
        (send_message_with_timeout env sub).endpoint_domain = "")) := by
  refine ⟨⟨?_, ?_, ?_⟩, ?_, ?_, ?_⟩
  · intro h; simp [send_message_with_timeout, h]
  · intro e h; simp [send_message_with_timeout, h]
  · intro h; simp [send_message_with_timeout, h]
  · intro a h; simp [send_message_with_timeout, authorityOrEmpty, h]
  · intro h; simp [send_message_with_timeout, authorityOrEmpty, h]
  · intro h; simp [send_message_with_timeout, authorityOrEmpty, h]

/-- Witness for C5: in the sample environment every delivery times out and
the sample endpoint's authority is `push.example.com`; the recorded result
carries the timeout marker and that domain. -/
theorem delivery_result_classification_witness :
    (send_message_with_timeout envOk subA).result_status = "Timed out." ∧
    (send_message_with_timeout envOk subA).endpoint_domain = "push.example.com" :=
  ⟨(delivery_result_classification envOk subA).1.2.2 rfl,
   (delivery_result_classification envOk subA).2.1 ("push.example.com") rfl⟩

/-- C6: payload construction is a pure function of the raw text, channel
id and default action URL: when the raw text decodes as form data the
payload's message is the decoded message field and the action is the
decoded action field when present, the default URL otherwise; when
decoding fails the entire raw input becomes the literal message text and
the action is the default URL; vibrate and silent are false in every
case. -/
theorem parse_new_payload_construction (decode : String → Option MessageFormData)
    (msg ch da : String) :
    ((∀ fd a, decode msg = some fd → fd.action = some a →
        MessagePayload.parse_new decode msg ch da =
          { message := fd.message, vibrate := false, silent := false, channel := ch,
            data := { action := a } }) ∧
     (∀ fd, decode msg = some fd → fd.action = none →
        MessagePayload.parse_new decode msg ch da =
          { message := fd.message, vibrate := false, silent := false, channel := ch,
            data := { action := da } })) ∧
    (decode msg = none →
        MessagePayload.parse_new decode msg ch da =
          { message := msg, vibrate := false, silent := false, channel := ch,
            data := { action := da } }) := by
  refine ⟨⟨?_, ?_⟩, ?_⟩
  · intro fd a h1 h2; simp [MessagePayload.parse_new, h1, h2]
  · intro fd h1 h2; simp [MessagePayload.parse_new, h1, h2]
  · intro h1; simp [MessagePayload.parse_new, h1]

/-- Witness for C6: with a decoder that fails on the input, the whole raw
text becomes the message and the action is the default channel-page URL. -/
theorem parse_new_payload_construction_witness :
    MessagePayload.parse_new (fun _ => none) ("hello there") ("abcdefg")
      ("https://x/c/abcdefg") =
      { message := "hello there", vibrate := false, silent := false,
        channel := "abcdefg", data := { action := "https://x/c/abcdefg" } } :=
  (parse_new_payload_construction (fun _ => none) ("hello there") ("abcdefg")
    ("https://x/c/abcdefg")).2 rfl

/-- C4: for every request through the rate limiter, the client identity is
the `x-forwarded-for` value, or the literal `unknown` when the header is
absent; on an exhausted quota the response is a 429 whose body names the
configured quota and the inner handler is not invoked; on success the
request is forwarded to the inner handler unchanged. -/
theorem rate_limiter_call_behavior (checkKey : String → Bool) (quotaDescr : String)
    (inner : HttpRequest → RlResponse) (req : HttpRequest) :
    ((∀ v, req.xForwardedFor = some v → clientIdentity req = v) ∧
     (req.xForwardedFor = none → clientIdentity req = "unknown")) ∧
    (checkKey (clientIdentity req) = false →
      RateLimiterMiddleware.call checkKey quotaDescr inner req =
        ({ status := 429, body := ("Rate limit of API calls exceeded. ") ++ quotaDescr },
         false)) ∧
    (checkKey (clientIdentity req) = true →
      RateLimiterMiddleware.call checkKey quotaDescr inner req = (inner req, true)) := by
  refine ⟨⟨?_, ?_⟩, ?_, ?_⟩
  · intro v h; simp [clientIdentity, h]
  · intro h; simp [clientIdentity, h]
  · intro h; simp [RateLimiterMiddleware.call, rateLimitRejection, h]
  · intro h; simp [RateLimiterMiddleware.call, h]

/-- Witness for C4: a request whose forwarded identity has exhausted its
quota is answered 429 with the quota named in the body, and the inner
handler is not invoked. -/
theorem rate_limiter_call_behavior_witness :
    RateLimiterMiddleware.call (fun _ => false) ("Quota of 20 per minute")
      (fun _ => { status := 200, body := "ok" })
      { xForwardedFor := some ("1.2.3.4"), body := "hello" } =
      ({ status := 429,
         body := ("Rate limit of API calls exceeded. ") ++ ("Quota of 20 per minute") },
       false) :=
  (rate_limiter_call_behavior (fun _ => false) ("Quota of 20 per minute")
    (fun _ => { status := 200, body := "ok" })
    { xForwardedFor := some ("1.2.3.4"), body := "hello" }).2.1 rfl

/-- A character accepted by `is_ascii_alphanumeric` occupies one UTF-8
byte. -/
theorem charUtf8Len_of_ascii (c : Char) (h : is_ascii_alphanumeric c = true) :
    charUtf8Len c = 1 := by
  unfold charUtf8Len
  unfold is_ascii_alphanumeric at h
  generalize hn : c.toNat = n at h ⊢
  simp only [Bool.or_eq_true, Bool.and_eq_true, decide_eq_true_eq] at h
  have hlt : n < 0x80 := by omega
  simp [hlt]

/-- On all-alphanumeric character lists the UTF-8 byte length equals the
character count. -/
theorem rustLenList_of_ascii (cs : List Char)
    (h : ∀ c ∈ cs, is_ascii_alphanumeric c = true) :
    rustLenList cs = cs.length := by
  induction cs with
  | nil => rfl
  | cons c rest ih =>
    have h1 : charUtf8Len c = 1 :=
      charUtf8Len_of_ascii c (h c (List.mem_cons_self c rest))
    have ih2 : rustLenList rest = rest.length :=
      ih (fun x hx => h x (List.mem_cons_of_mem c hx))
    simp only [rustLenList, List.map_cons, List.sum_cons, h1, List.length_cons] at ih2 ⊢
    omega

/-- The `redirect` handler, rephrased over character count: the Rust
byte-length test agrees with the character count on the only inputs that
can pass the alphanumeric test. -/
theorem redirect_eq (base cid : String) :
    redirect base cid =
      if cid.length > 6 ∧ ∀ c ∈ cid.data, is_ascii_alphanumeric c = true then
        { status := 302, location := some (channel_page_url base cid) }
      else { status := 404, location := none } := by
  have hlen : cid.length = cid.data.length := rfl
  by_cases hall : ∀ c ∈ cid.data, is_ascii_alphanumeric c = true
  · have hallb : cid.data.all is_ascii_alphanumeric = true := by simpa using hall
    have hr : rustStrLen cid = cid.data.length := rustLenList_of_ascii cid.data hall
    by_cases hgt : cid.data.length > 6
    · rw [redirect, if_pos ⟨by omega, hallb⟩, if_pos ⟨by omega, hall⟩]
    · rw [redirect,
        if_neg (fun hc => hgt (show cid.data.length > 6 by omega)),
        if_neg (fun hc => hgt (show cid.data.length > 6 by omega))]
  · rw [redirect,
      if_neg (fun hc => hall (by simpa using hc.2)),
      if_neg (fun hc => hall hc.2)]

/-- C9: the `redirect` handler is a function of the path segment alone (it
takes no store argument because the code performs no store access) and
answers 302 with the channel-page URL as location exactly when the id is
longer than 6 characters and entirely ASCII alphanumeric, and a plain 404
otherwise — so a never-created id of valid shape redirects and a short id
gets 404, regardless of what the store holds. -/
theorem redirect_syntactic_decision (base cid : String) :
    ((redirect base cid).status = 302 ↔
      (cid.length > 6 ∧ ∀ c ∈ cid.data, is_ascii_alphanumeric c = true)) ∧
    ((redirect base cid).status = 302 →
      (redirect base cid).location = some (channel_page_url base cid)) ∧
    ((redirect base cid).status ≠ 302 →
      redirect base cid = { status := 404, location := none }) := by
  rw [redirect_eq]
  by_cases h : cid.length > 6 ∧ ∀ c ∈ cid.data, is_ascii_alphanumeric c = true
  · rw [if_pos h]
    exact ⟨⟨fun _ => h, fun _ => rfl⟩, fun _ => rfl, fun hne => absurd rfl hne⟩
  · rw [if_neg h]
    exact ⟨⟨fun h302 => absurd h302 (by decide), fun hcond => absurd hcond h⟩,
           fun h302 => absurd h302 (by decide), fun _ => rfl⟩

/-- Witness for C9: the 7-character alphanumeric id `abcdefg` redirects. -/
theorem redirect_syntactic_decision_witness :
    ("abcdefg" : String).length > 6 ∧
    (redirect ("https://notify.example") ("abcdefg")).status = 302 :=
  ⟨by decide,
   (redirect_syntactic_decision ("https://notify.example") ("abcdefg")).1.mpr (by decide)⟩

/-- C3: the send endpoint `POST /:channel_id` is guarded by admission
control: the rate-limited sub-router is a catch-all prefix consulted
first, so a request whose quota is exhausted is rejected (429, see
`rate_limiter_call_behavior`) before any handler runs and the send handler
is not invoked; when the quota admits the request, it falls through the
sub-router and reaches the send handler. The id hypotheses only exclude
the path segments that name other registered routes. -/
theorem send_route_rate_limited (cid : String)
    (h1 : cid ≠ "register_channel") (h2 : cid ≠ "undefined")
    (h3 : cid ≠ "service-worker.js") :
    dispatch true Method.post [cid] app = Outcome.rejected 429 ∧
    dispatch false Method.post [cid] app = Outcome.invoked Handler.send := by
  constructor
  · rfl
  · have e1 : (("register_channel" : String) = cid) = False :=
      eq_false (fun hh => h1 hh.symm)
    have e2 : (("undefined" : String) = cid) = False :=
      eq_false (fun hh => h2 hh.symm)
    have e3 : (("service-worker.js" : String) = cid) = False :=
      eq_false (fun hh => h3 hh.symm)
    simp [dispatch, app, active_inner, matchInner, fullMatch, segMatch, stripPre,
      findHandler, e1, e2, e3]

/-- Witness for C3: the id `abcdefg` names no other route; under an
exhausted quota the post is rejected 429, otherwise it reaches `send`. -/
theorem send_route_rate_limited_witness :
    dispatch true Method.post [("abcdefg")] app = Outcome.rejected 429 ∧
    dispatch false Method.post [("abcdefg")] app = Outcome.invoked Handler.send :=
  send_route_rate_limited ("abcdefg") (by decide) (by decide) (by decide)

/-- C7 counterexample: in `envStoreDown` the channel `abcdefg` exists in
the store but the store call of the existence check itself fails
(`GetErr.storeFailure`); the claim says such a store failure is reported
as Internal 500, yet the code pipes the failed `get` through
`log_error_not_found`, which maps every error — whatever its cause — to
404. -/
theorem existence_check_store_failure_gives_404 :
    channelsGet envStoreDown ("abcdefg") = .error GetErr.storeFailure ∧
    ("abcdefg" : String) ∈ envStoreDown.channels ∧
    (send envStoreDown ("abcdefg") ("hello") ("1.2.3.4")).1 = .error NOT_FOUND ∧
    NOT_FOUND ≠ INTERNAL_SERVER_ERROR :=
  ⟨rfl, by decide, rfl, by decide⟩

/-- C7 amended: on every channel-targeting endpoint (`info`, `subscribe`
and `send`) any failure of the channel-existence check — store failure as
well as channel absence — is reported to the caller as 404, while store
failures elsewhere (pool acquisition on each endpoint, the store write of
`subscribe` and `send`) are reported as Internal 500. -/
theorem channel_endpoint_error_status_taxonomy (env : Env) (cid msg ip : String)
    (req : SubscriptionRequest) :
    ((env.dbOk = true) → (env.getOk = false ∨ cid ∉ env.channels) →
      (info env cid).1 = .error NOT_FOUND ∧
      (subscribe env req cid).1 = .error NOT_FOUND ∧
      (send env cid msg ip).1 = .error NOT_FOUND) ∧
    ((env.dbOk = false) →
      (info env cid).1 = .error INTERNAL_SERVER_ERROR ∧
      (subscribe env req cid).1 = .error INTERNAL_SERVER_ERROR ∧
      (send env cid msg ip).1 = .error INTERNAL_SERVER_ERROR) ∧
    ((env.dbOk = true) → (channelsGet env cid = .ok ()) → (env.createOk = false) →
      (subscribe env req cid).1 = .error INTERNAL_SERVER_ERROR ∧
      (send env cid msg ip).1 = .error INTERNAL_SERVER_ERROR) := by
  refine ⟨?_, ?_, ?_⟩
  · intro h1 h2
    have hg : ∃ g, channelsGet env cid = Except.error g := by
      unfold channelsGet
      by_cases hget : env.getOk = false
      · exact ⟨GetErr.storeFailure, by simp [hget]⟩
      · rcases h2 with h2 | h2
        · exact absurd h2 hget
        · exact ⟨GetErr.notFound, by simp [hget, h2]⟩
    rcases hg with ⟨g, hg⟩
    refine ⟨?_, ?_, ?_⟩ <;>
      simp [info, subscribe, send, dbGet, h1, hg, log_error_internal, log_error_not_found]
  · intro h1
    refine ⟨?_, ?_, ?_⟩ <;>
      simp [info, subscribe, send, dbGet, h1, log_error_internal]
  · intro h1 h2 h3
    refine ⟨?_, ?_⟩ <;>
      simp [subscribe, send, dbGet, createResult, h1, h2, h3,
        log_error_internal, log_error_not_found]

/-- Witness for C7's amended claim: the store failure of the existence
check in `envStoreDown` yields 404 on all three channel-targeting
endpoints. -/
theorem channel_endpoint_error_status_taxonomy_witness :
    (info envStoreDown ("abcdefg")).1 = .error NOT_FOUND ∧
    (subscribe envStoreDown reqA ("abcdefg")).1 = .error NOT_FOUND ∧
    (send envStoreDown ("abcdefg") ("hello") ("1.2.3.4")).1 = .error NOT_FOUND :=
  (channel_endpoint_error_status_taxonomy envStoreDown ("abcdefg") ("hello") ("1.2.3.4")
    reqA).1 rfl (Or.inl rfl)

/-- C8: for a channel id that was never created (store transport
healthy, pool handle acquired), `info`, `subscribe` and `send` each fail
with 404 and persist no store writes under that channel. -/
theorem missing_channel_not_found_no_writes (env : Env) (cid msg ip : String)
    (req : SubscriptionRequest)
    (hdb : env.dbOk = true) (habs : cid ∉ env.channels) :
    info env cid = (.error NOT_FOUND, []) ∧
    subscribe env req cid = (.error NOT_FOUND, []) ∧
    send env cid msg ip = (.error NOT_FOUND, []) := by
  have hg : ∃ g, channelsGet env cid = Except.error g := by
    unfold channelsGet
    by_cases hget : env.getOk = false
    · exact ⟨GetErr.storeFailure, by simp [hget]⟩
    · exact ⟨GetErr.notFound, by simp [hget, habs]⟩
  rcases hg with ⟨g, hg⟩
  refine ⟨?_, ?_, ?_⟩ <;>
    simp [info, subscribe, send, dbGet, hdb, hg, log_error_internal, log_error_not_found]

/-- Witness for C8: in the channel-less environment the id `abcdefg` was
never created; all three operations answer 404 with no writes. -/
theorem missing_channel_not_found_no_writes_witness :
    info envNoChannel ("abcdefg") = (.error NOT_FOUND, []) ∧
    subscribe envNoChannel reqA ("abcdefg") = (.error NOT_FOUND, []) ∧
    send envNoChannel ("abcdefg") ("hello") ("1.2.3.4") = (.error NOT_FOUND, []) :=
  missing_channel_not_found_no_writes envNoChannel ("abcdefg") ("hello") ("1.2.3.4")
    reqA rfl (by decide)

/-- C10: for an existing channel (pool handle acquired), `info` succeeds
without writing and returns the (at most) 10 most recent messages in
time-descending order, regardless of how many messages the channel holds:
at most 10 entries, pairwise descending, each drawn from the channel's
stored messages, all of them when the channel holds at most 10; and the
stored messages split, up to permutation, into the returned ones and a
remainder every element of which is no newer than every returned entry —
a remainder that is nonempty only when 10 messages are already returned.
So with more than 10 stored messages exactly a 10-element
time-dominating selection is returned. -/
theorem info_returns_ten_most_recent (env : Env) (cid : String)
    (hdb : env.dbOk = true) (hch : channelsGet env cid = .ok ()) :
    ∃ ci : ChannelInfo,
      info env cid = (.ok ci, []) ∧
      ci.messages.length ≤ 10 ∧
      List.Pairwise (fun a b => b.time ≤ a.time) ci.messages ∧
      (∀ mi ∈ ci.messages, ∃ m ∈ env.messages cid,
        mi = { message := m.message, result := m.result, time := m.message_time }) ∧
      ((env.messages cid).length ≤ 10 →
        ci.messages.length = (env.messages cid).length) ∧
      (∃ chosen rest : List Message,
        (env.messages cid).Perm (chosen ++ rest) ∧
        ci.messages = chosen.map (fun d =>
          { message := d.message, result := d.result, time := d.message_time }) ∧
        (∀ x ∈ chosen, ∀ y ∈ rest, y.message_time ≤ x.message_time) ∧
        (rest = [] ∨ chosen.length = 10)) := by
  refine ⟨{ channel_id := cid
            messages := (messagesPage env cid).map (fun d =>
              { message := d.message, result := d.result, time := d.message_time })
            time := ""
            pub_key := env.vapid_pubkey
            endpoint := endpoint_url env.server_base cid
            channel_page := channel_page_url env.server_base cid },
          ?_, ?_, ?_, ?_, ?_, ?_⟩
  · simp [info, dbGet, hdb, hch, log_error_internal, log_error_not_found]
  · simp only [List.length_map, messagesPage, List.length_take]
    omega
  · have hs : List.Pairwise timeGe (messagesPage env cid) :=
      List.Pairwise.sublist (List.take_sublist _ _)
        (List.sorted_insertionSort timeGe (env.messages cid))
    exact List.Pairwise.map _ (fun a b h => h) hs
  · intro mi hmi
    rw [List.mem_map] at hmi
    rcases hmi with ⟨m, hm, rfl⟩
    refine ⟨m, ?_, rfl⟩
    have hmem : m ∈ List.insertionSort timeGe (env.messages cid) :=
      (List.take_sublist _ _).subset hm
    exact (List.perm_insertionSort timeGe (env.messages cid)).mem_iff.mp hmem
  · intro hle
    have hp : (List.insertionSort timeGe (env.messages cid)).length =
        (env.messages cid).length :=
      (List.perm_insertionSort timeGe (env.messages cid)).length_eq
    simp only [List.length_map, messagesPage, List.length_take]
    omega
  · refine ⟨(List.insertionSort timeGe (env.messages cid)).take 10,
            (List.insertionSort timeGe (env.messages cid)).drop 10, ?_, rfl, ?_, ?_⟩
    · rw [List.take_append_drop]
      exact (List.perm_insertionSort timeGe (env.messages cid)).symm
    · have hsorted : List.Pairwise timeGe
          (List.insertionSort timeGe (env.messages cid)) :=
        List.sorted_insertionSort timeGe (env.messages cid)
      rw [← List.take_append_drop 10 (List.insertionSort timeGe (env.messages cid))]
        at hsorted
      exact fun x hx y hy => (List.pairwise_append.mp hsorted).2.2 x hx y hy
    · by_cases hle : (List.insertionSort timeGe (env.messages cid)).length ≤ 10
      · exact Or.inl (List.drop_eq_nil_of_le hle)
      · refine Or.inr ?_
        rw [List.length_take]
        omega

/-- Witness for C10: the sample channel exists and holds no messages; the
info response returns all zero of them, and the selection split is the
trivial one. -/
theorem info_returns_ten_most_recent_witness :
    ∃ ci : ChannelInfo,
      info envOk ("abcdefg") = (.ok ci, []) ∧
      ci.messages.length ≤ 10 ∧
      List.Pairwise (fun a b => b.time ≤ a.time) ci.messages ∧
      (∀ mi ∈ ci.messages, ∃ m ∈ envOk.messages ("abcdefg"),
        mi = { message := m.message, result := m.result, time := m.message_time }) ∧
      ((envOk.messages ("abcdefg")).length ≤ 10 →
        ci.messages.length = (envOk.messages ("abcdefg")).length) ∧
      (∃ chosen rest : List Message,
        (envOk.messages ("abcdefg")).Perm (chosen ++ rest) ∧
        ci.messages = chosen.map (fun d =>
          { message := d.message, result := d.result, time := d.message_time }) ∧
        (∀ x ∈ chosen, ∀ y ∈ rest, y.message_time ≤ x.message_time) ∧
        (rest = [] ∨ chosen.length = 10)) :=
  info_returns_ten_most_recent envOk ("abcdefg") rfl rfl

end NotifyRun
